import Mathlib

/-!
Verification of the playbox stacked-autoencoder framework.

Shallow embedding of the code under src/trunk/modules/python:
  - ae/net.py          (SAENetwork, ClassifierSAENetwork, TrainerSAENetwork)
  - nn/costUtils.py    (calcLoss, compileUpdates, ...)
  - dataset/ingest/labeled.py (readAndDivideData, hdf5Dataset)
  - dataset/reader.py  (mostCommonExtension, ...)

Floating-point tensors are modelled over ℚ; theano symbolic graphs are
modelled either symbolically (as expression trees) or by their update
equations; Python attribute dictionaries are modelled as records of
Option-valued fields (none = attribute/key absent).
-/

/- ## Greedy layerwise encoder construction (TrainerSAENetwork.__buildEncoder,
   ae/net.py lines 201-219) -/

/-- Symbolic tensor expressions appearing while the greedy training graphs
are wired.  `rawBatch` is `self._trainData[0]`, the raw training batch that
starts the loop; `encoded id e` is the output of the autoencoder layer with
identifier `id` applied to the expression `e`. -/
inductive TensorExpr where
  | rawBatch : TensorExpr
  | encoded : ℕ → TensorExpr → TensorExpr
  deriving DecidableEq

/-- Modelled from the spec: the AutoEncoder layer capability (ae/encoder.py is
not in src/).  Per the external interface, `finalize(inputPair)` fixes the
layer's input pair and the `output` property is the layer's encoded transform
of that pair — a lower-dimensional encoding, hence a distinct expression from
the input itself. -/
def layerOutput (layerId : ℕ) (inputPair : TensorExpr × TensorExpr) :
    TensorExpr × TensorExpr :=
  (TensorExpr.encoded layerId inputPair.1, TensorExpr.encoded layerId inputPair.2)

/-- The sequence of arguments handed to each layer's `finalize` by
`__buildEncoder`: `layerInput` starts as `(trainData[0], trainData[0])` and is
reassigned to `encoder.output` after each layer (ae/net.py lines 207-218). -/
def buildEncoderArgs : List ℕ → TensorExpr × TensorExpr →
    List (TensorExpr × TensorExpr)
  | [], _ => []
  | l :: ls, inp => inp :: buildEncoderArgs ls (layerOutput l inp)

/-- Arguments received by each layer's `finalize` during greedy-layerwise
finalization, in layer order, starting from the raw training batch. -/
def trainGreedyFinalizeInputs (layers : List ℕ) : List (TensorExpr × TensorExpr) :=
  buildEncoderArgs layers (TensorExpr.rawBatch, TensorExpr.rawBatch)

/- ## Loss selection (nn/costUtils.py calcLoss, ae/net.py __buildDecoder) -/

/-- Activation functions distinguishable by `calcLoss`'s equality test. -/
inductive Activation where
  | sigmoid | relu | tanhAct
  deriving DecidableEq

/-- The two loss families `calcLoss` can select. -/
inductive LossKind where
  | crossEntropy | meanSquared
  deriving DecidableEq

/-- A reconstruction-loss term as built by `calcLoss`: which loss family was
chosen and which axis the inner sum runs over. -/
structure LossExpr where
  kind : LossKind
  axis : ℕ
  deriving DecidableEq

/-- calcLoss (nn/costUtils.py lines 39-46): picks the axis from the estimate's
dimensionality and selects cross-entropy exactly when the activation argument
equals `t.nnet.sigmoid`, mean-squared-error otherwise. -/
def calcLoss (qNdim : ℕ) (activation : Activation) : LossExpr :=
  let axis := if qNdim > 2 then qNdim - 2 else 1
  if activation = Activation.sigmoid then ⟨LossKind.crossEntropy, axis⟩
  else ⟨LossKind.meanSquared, axis⟩

/-- The reconstruction-loss term of the network-wide (joint) training graph
(ae/net.py line 244): `calcLoss(self._trainData[0], decodedInput, t.nnet.relu)`.
The source passes the fixed constant `t.nnet.relu`; the first layer's
configured activation is available to the method but never consulted, which is
why the parameter below is unused. -/
def buildDecoderReconLoss (firstLayerActivation : Activation) (qNdim : ℕ) :
    LossExpr :=
  calcLoss qNdim Activation.relu

/- ## Network-wide weight updates (ae/net.py lines 247-264) -/

/-- A layer as seen by the joint training-update loop: its learning rate, its
momentum rate, and its weights each paired with the gradient of the summed
composite loss with respect to that weight (`t.grad(t.sum(costs), ...)`). -/
structure JointLayer where
  learningRate : ℚ
  momentumRate : ℚ
  weights : List (ℚ × ℚ)
  deriving DecidableEq

/-- The update list built by `__buildDecoder` (ae/net.py lines 248-258):
`updates = []`, then for each decoder in reversed layer order and each
(weight, gradient) pair, append `(w, w - decoder.getLearningRate() * g)`. -/
def buildDecoderUpdates (layers : List JointLayer) : List (ℚ × ℚ) :=
  layers.reverse.foldl
    (fun updates decoder =>
      updates ++ decoder.weights.map
        (fun wg => (wg.1, wg.1 - decoder.learningRate * wg.2)))
    []

/-- Stated from the claim's words, for comparison with the code: one momentum
step on a (weight, velocity) pair, in which `velocity' = velocity*momentum -
learningRate*gradient` and `weight' = weight + velocity'`. -/
def claimedMomentumUpdate (momentum learningRate : ℚ) (wv : ℚ × ℚ) (g : ℚ) :
    ℚ × ℚ :=
  let v := wv.2 * momentum - learningRate * g
  (wv.1 + v, v)

/- ## Batch-index validation in train() (ae/net.py lines 312-339) -/

/-- Values a Python caller could pass as the batch index. -/
inductive PyVal where
  | int (n : ℤ)
  | float (q : ℚ)
  | str (s : String)
  deriving DecidableEq

/-- The two failures `train` can raise while validating the index: the
`isinstance(index, int)` check and the `index >= self._numTrainBatches`
check (both raised as `Exception` with the corresponding message). -/
inductive TrainErr where
  | typeError | rangeError
  deriving DecidableEq

/-- Index validation performed by `train` (ae/net.py lines 324-327): first the
integer type check, then the one-sided range check against numBatches.  There
is no lower-bound check. -/
def trainValidateIndex (numBatches : ℕ) (index : PyVal) : Except TrainErr ℤ :=
  match index with
  | PyVal.int n =>
      if n ≥ (numBatches : ℤ) then Except.error TrainErr.rangeError
      else Except.ok n
  | _ => Except.error TrainErr.typeError

/-- Python sequence indexing semantics for the batch lookup
`self._trainData[index]`: nonnegative indices below the length are used
directly, negative indices with magnitude at most the length select from the
end, anything else is out of bounds (`none`). -/
def pythonBatchIndex (numBatches : ℕ) (n : ℤ) : Option ℤ :=
  if 0 ≤ n ∧ n < (numBatches : ℤ) then some n
  else if -(numBatches : ℤ) ≤ n ∧ n < 0 then some ((numBatches : ℤ) + n)
  else none

/-- The batch a `train(layerIndex, index)` call ends up consuming, after the
validation of ae/net.py lines 324-327 and the `givens` substitution
`trainData[index]`. -/
def trainBatchUsed (numBatches : ℕ) (index : PyVal) :
    Except TrainErr (Option ℤ) :=
  (trainValidateIndex numBatches index).map (pythonBatchIndex numBatches)

/- ## Theorems for C1 -/

/-- Claim C1 counterexample: in a two-layer network the second layer's
`finalize` does not receive the original network input paired with itself —
it receives the first layer's output pair, because `__buildEncoder` reassigns
`layerInput = encoder.output` (ae/net.py line 218). -/
theorem C1_counterexample :
    (trainGreedyFinalizeInputs [0, 1]).get? 1 =
      some (TensorExpr.encoded 0 TensorExpr.rawBatch,
            TensorExpr.encoded 0 TensorExpr.rawBatch) ∧
    (trainGreedyFinalizeInputs [0, 1]).get? 1 ≠
      some (TensorExpr.rawBatch, TensorExpr.rawBatch) := by
  refine ⟨rfl, ?_⟩
  decide

/-- Claim C1 (amended): only the first layer's `finalize` receives the raw
training batch paired with itself; every subsequent layer's `finalize`
receives the previous layer's output pair, so greedy training targets cascade
instead of all being the raw input. -/
theorem C1_greedy_inputs_cascade (layers : List ℕ) (k : ℕ)
    (h : k + 1 < layers.length) :
    (trainGreedyFinalizeInputs layers).getD 0
        (TensorExpr.rawBatch, TensorExpr.rawBatch) =
      (TensorExpr.rawBatch, TensorExpr.rawBatch) ∧
    (trainGreedyFinalizeInputs layers).getD (k + 1)
        (TensorExpr.rawBatch, TensorExpr.rawBatch) =
      layerOutput (layers.getD k 0)
        ((trainGreedyFinalizeInputs layers).getD k
          (TensorExpr.rawBatch, TensorExpr.rawBatch)) := by
  constructor
  · cases layers with
    | nil => simp at h
    | cons l ls => rfl
  · have main : ∀ (ls : List ℕ) (inp : TensorExpr × TensorExpr) (k : ℕ),
        k + 1 < ls.length →
        (buildEncoderArgs ls inp).getD (k + 1)
            (TensorExpr.rawBatch, TensorExpr.rawBatch) =
          layerOutput (ls.getD k 0)
            ((buildEncoderArgs ls inp).getD k
              (TensorExpr.rawBatch, TensorExpr.rawBatch)) := by
      intro ls
      induction ls with
      | nil => intro inp k hk; simp at hk
      | cons l ls ih =>
          intro inp k hk
          cases k with
          | zero =>
              cases ls with
              | nil => simp at hk
              | cons l2 ls2 => rfl
          | succ k2 =>
              have hk2 : k2 + 1 < ls.length := by
                simpa [List.length_cons, Nat.succ_lt_succ_iff] using hk
              simpa [buildEncoderArgs, List.getD_cons_succ] using
                ih (layerOutput l inp) k2 hk2
    exact main layers (TensorExpr.rawBatch, TensorExpr.rawBatch) k h

/-- Witness for C1_greedy_inputs_cascade at the concrete layer list [0,1,2]. -/
theorem C1_greedy_inputs_cascade_witness :
    (trainGreedyFinalizeInputs [0, 1, 2]).getD 0
        (TensorExpr.rawBatch, TensorExpr.rawBatch) =
      (TensorExpr.rawBatch, TensorExpr.rawBatch) ∧
    (trainGreedyFinalizeInputs [0, 1, 2]).getD 2
        (TensorExpr.rawBatch, TensorExpr.rawBatch) =
      layerOutput 1
        ((trainGreedyFinalizeInputs [0, 1, 2]).getD 1
          (TensorExpr.rawBatch, TensorExpr.rawBatch)) :=
  C1_greedy_inputs_cascade [0, 1, 2] 1 (by decide)

/- ## Theorems for C2 -/

/-- Claim C2 counterexample: with the first layer configured with a sigmoid
activation (and a 4-d estimate), the joint reconstruction loss is still
mean-squared-error, because `__buildDecoder` passes the constant `t.nnet.relu`
to `calcLoss` (ae/net.py line 244) — not cross-entropy as the claim requires. -/
theorem C2_counterexample :
    buildDecoderReconLoss Activation.sigmoid 4 =
      ⟨LossKind.meanSquared, 2⟩ ∧
    (⟨LossKind.meanSquared, 2⟩ : LossExpr) ≠ ⟨LossKind.crossEntropy, 2⟩ := by
  refine ⟨rfl, ?_⟩
  decide

/-- Claim C2 (amended): the reconstruction-loss term of the network-wide
training graph is always mean-squared-error, whatever the first layer's
configured activation — the call site hardwires `t.nnet.relu`.  The
activation-conditional choice exists only inside `calcLoss` itself, which
selects cross-entropy exactly when its activation argument is sigmoid. -/
theorem C2_recon_loss_always_mse (firstLayerActivation : Activation)
    (qNdim : ℕ) :
    (buildDecoderReconLoss firstLayerActivation qNdim).kind =
      LossKind.meanSquared ∧
    ((calcLoss qNdim firstLayerActivation).kind = LossKind.crossEntropy ↔
      firstLayerActivation = Activation.sigmoid) := by
  constructor
  · rfl
  · cases firstLayerActivation <;> simp [calcLoss]

/- ## Theorems for C3 -/

/-- Claim C3 counterexample: a single-layer network with momentum rate 1/2 and
learning rate 1.  Starting from weight 0, velocity 0 and constant gradient 1,
the claimed momentum dynamics and the code agree after one step (both reach
weight -1), but on the next step the code's joint update produces -2 (plain
`w - lr*g`) while the claimed update `weight' = weight + velocity'` produces
-5/2 — the joint step never applies momentum. -/
theorem C3_counterexample :
    buildDecoderUpdates [⟨1, 1/2, [((0 : ℚ), 1)]⟩] = [((0 : ℚ), -1)] ∧
    buildDecoderUpdates [⟨1, 1/2, [((-1 : ℚ), 1)]⟩] = [((-1 : ℚ), -2)] ∧
    claimedMomentumUpdate (1/2) 1 ((0 : ℚ), 0) 1 = (-1, -1) ∧
    claimedMomentumUpdate (1/2) 1 ((-1 : ℚ), -1) 1 = (-5/2, -3/2) ∧
    ((-2 : ℚ)) ≠ -5/2 := by
  refine ⟨?_, ?_, ?_, ?_, ?_⟩ <;>
    norm_num [buildDecoderUpdates, claimedMomentumUpdate, Prod.ext_iff]

/-- Claim C3 (amended): every update pair produced by the network-wide
training step has the plain gradient-descent form
`weight' = weight - learningRate * gradient`, for every layer — the layer's
momentum rate, zero or not, never enters the joint update. -/
theorem C3_joint_update_plain_gd (layers : List JointLayer) (u : ℚ × ℚ)
    (hu : u ∈ buildDecoderUpdates layers) :
    ∃ l ∈ layers, ∃ wg ∈ l.weights,
      u = (wg.1, wg.1 - l.learningRate * wg.2) := by
  have main : ∀ (ls : List JointLayer) (acc : List (ℚ × ℚ)),
      u ∈ ls.foldl
          (fun updates decoder =>
            updates ++ decoder.weights.map
              (fun wg => (wg.1, wg.1 - decoder.learningRate * wg.2)))
          acc →
      u ∈ acc ∨ ∃ l ∈ ls, ∃ wg ∈ l.weights,
        u = (wg.1, wg.1 - l.learningRate * wg.2) := by
    intro ls
    induction ls with
    | nil => intro acc hmem; exact Or.inl hmem
    | cons d ds ih =>
        intro acc hmem
        rcases ih _ hmem with hacc | ⟨l, hl, wg, hwg, hequ⟩
        · rcases List.mem_append.mp hacc with h1 | h2
          · exact Or.inl h1
          · rcases List.mem_map.mp h2 with ⟨wg, hwg, hequ⟩
            exact Or.inr ⟨d, List.mem_cons_self d ds, wg, hwg, hequ.symm⟩
        · exact Or.inr ⟨l, List.mem_cons_of_mem d hl, wg, hwg, hequ⟩
  rcases main layers.reverse [] hu with hacc | ⟨l, hl, wg, hwg, hequ⟩
  · simp at hacc
  · exact ⟨l, List.mem_reverse.mp hl, wg, hwg, hequ⟩

/-- Witness for C3_joint_update_plain_gd: the concrete update of a
momentum-carrying layer is exhibited inside the update list. -/
theorem C3_joint_update_plain_gd_witness :
    ∃ l ∈ [(⟨2, 3/4, [((5 : ℚ), 1)]⟩ : JointLayer)], ∃ wg ∈ l.weights,
      ((5 : ℚ), (3 : ℚ)) = (wg.1, wg.1 - l.learningRate * wg.2) :=
  C3_joint_update_plain_gd [⟨2, 3/4, [((5 : ℚ), 1)]⟩] ((5 : ℚ), (3 : ℚ))
    (by simp [buildDecoderUpdates, Prod.ext_iff]; norm_num)

/- ## Theorems for C4 -/

/-- Claim C4 counterexample: with 3 training batches, the integer index -1 is
outside [0, numBatches) yet raises neither error — validation only checks the
upper bound, and the negative index silently selects the last batch (batch 2)
through Python negative indexing. -/
theorem C4_counterexample :
    trainBatchUsed 3 (PyVal.int (-1)) = Except.ok (some 2) ∧
    (Except.ok (some 2) : Except TrainErr (Option ℤ)) ≠
      Except.error TrainErr.rangeError := by
  refine ⟨rfl, ?_⟩
  intro h
  exact Except.noConfusion h

/-- Claim C4 (amended): `train` fails with the type error for every
non-integer index; it fails with the range error exactly for integer indices
at or above numBatches; every integer index below numBatches — including every
negative one — raises neither error, and a negative index with magnitude at
most numBatches consumes batch `numBatches + idx`. -/
theorem C4_train_index_validation (numBatches : ℕ) (n : ℤ) (q : ℚ)
    (s : String) :
    (trainValidateIndex numBatches (PyVal.float q) =
        Except.error TrainErr.typeError ∧
      trainValidateIndex numBatches (PyVal.str s) =
        Except.error TrainErr.typeError) ∧
    (n ≥ (numBatches : ℤ) →
      trainValidateIndex numBatches (PyVal.int n) =
        Except.error TrainErr.rangeError) ∧
    (n < (numBatches : ℤ) →
      trainValidateIndex numBatches (PyVal.int n) = Except.ok n) ∧
    (-(numBatches : ℤ) ≤ n → n < 0 →
      trainBatchUsed numBatches (PyVal.int n) =
        Except.ok (some ((numBatches : ℤ) + n))) := by
  refine ⟨⟨rfl, rfl⟩, ?_, ?_, ?_⟩
  · intro hge
    simp [trainValidateIndex, hge]
  · intro hlt
    simp [trainValidateIndex, not_le.mpr hlt]
  · intro hle hneg
    have hlt : n < (numBatches : ℤ) := lt_of_lt_of_le hneg (by positivity)
    simp [trainBatchUsed, trainValidateIndex, not_le.mpr hlt, Except.map,
          pythonBatchIndex, not_le.mpr hneg, hle, hneg]

/-- Witness for C4_train_index_validation at numBatches = 3, index -2. -/
theorem C4_train_index_validation_witness :
    trainValidateIndex 3 (PyVal.float (1/2)) =
        Except.error TrainErr.typeError ∧
    trainValidateIndex 3 (PyVal.int 5) = Except.error TrainErr.rangeError ∧
    trainBatchUsed 3 (PyVal.int (-2)) = Except.ok (some 1) := by
  refine ⟨(C4_train_index_validation 3 5 (1/2) "x").1.1, ?_, ?_⟩
  · exact (C4_train_index_validation 3 5 (1/2) "x").2.1 (by decide)
  · have h := (C4_train_index_validation 3 (-2) (1/2) "x").2.2.2
      (by decide) (by decide)
    simpa using h

/- ## Holdout split (readAndDivideData, dataset/ingest/labeled.py 104-166) -/

/-- Python `int()` truncation toward zero, applied to a rational. -/
def pyInt (q : ℚ) : ℤ := if q < 0 then ⌈q⌉ else ⌊q⌋

/-- Per-label holdout computation (labeled.py lines 132-138): `numTest =
max(minTest, int(holdoutPercentage * len(files)))`, then the effective
probability `numTest / len(files)`.  Returns the pair (numTest, probability).
Called only for directories with at least one file (line 118 skips empty
ones). -/
def labelHoldout (minTest : ℤ) (p : ℚ) (n : ℕ) : ℤ × ℚ :=
  let numTest : ℤ := max minTest (pyInt (p * n))
  (numTest, (numTest : ℚ) / (n : ℚ))

/- ## Name resolution at labeled.py line 142 -/

/-- Module-level bindings of dataset/ingest/labeled.py: its three imports
(os, numpy as np, theano.tensor as t) and its four function definitions. -/
def labeledModuleGlobals : List String :=
  ["os", "np", "t", "checkAvailableMemory", "readDataset",
   "readAndDivideData", "hdf5Dataset", "ingestImagery"]

/-- Names bound in the local scope of `readAndDivideData` by the time line 142
runs: the parameters, the function-local import, and the variables assigned
earlier in the body. -/
def readAndDivideDataLocals : List String :=
  ["path", "holdoutPercentage", "minTest", "log", "naiveShuffle",
   "train", "test", "labels", "root", "dirs", "files", "label", "indx",
   "numTest"]

/-- Python builtins this function could fall back to (representative list;
`mostCommonSuffix` is not a builtin). -/
def pythonBuiltins : List String :=
  ["max", "min", "int", "float", "len", "range", "isinstance", "str"]

/-- Python exceptions relevant to this module: the NameError of labeled.py
line 142 and the ValueError of line 230 (no training examples found). -/
inductive PyExc where
  | nameError (n : String)
  | valueError
  deriving DecidableEq

/-- Python name resolution for a bare name evaluated inside
`readAndDivideData`: local scope, then module globals, then builtins; an
unbound name raises NameError. -/
def resolveName (n : String) : Except PyExc String :=
  if n ∈ readAndDivideDataLocals ∨ n ∈ labeledModuleGlobals ∨
      n ∈ pythonBuiltins then
    Except.ok n
  else Except.error (PyExc.nameError n)

/-- The per-label body of `readAndDivideData`: directories with no files are
skipped (line 118); otherwise the holdout count and probability are computed
(lines 132-138) and then line 142 evaluates
`suffix = mostCommonSuffix(files, samplesize=50)` — a bare name that must be
resolved before the call can happen.  On success the filtered example list
and the updated probability would flow onward (that branch is unreachable
with the module's actual bindings). -/
def processLabelDir (minTest : ℤ) (p : ℚ) (files : List String) :
    Except PyExc (ℚ × List String) :=
  if files.length = 0 then Except.ok (p, [])
  else
    let r := labelHoldout minTest p files.length
    match resolveName "mostCommonSuffix" with
    | Except.error e => Except.error e
    | Except.ok _ => Except.ok (r.2, files)

/-- Evaluation of the unbound name at labeled.py line 142, as an unfolding
lemma for the walk proofs below. -/
theorem resolveName_mostCommonSuffix :
    resolveName "mostCommonSuffix" =
      Except.error (PyExc.nameError "mostCommonSuffix") := rfl

/-- readAndDivideData (labeled.py lines 104-166) over the per-label file
lists in walk order: the `holdoutPercentage` variable — overwritten inside
each non-empty label at line 138 — is threaded from label to label, and the
walk aborts with the line-142 NameError inside the FIRST non-empty label
directory, before the Bernoulli assignment at line 154 and before any later
label.  Only a walk in which every label directory is empty completes, and
it has then collected no examples.  On completion the per-label retained
example lists are returned. -/
def readAndDivideData (minTest : ℤ) : ℚ → List (List String) →
    Except PyExc (List (List String))
  | _, [] => Except.ok []
  | p, files :: rest =>
      match processLabelDir minTest p files with
      | Except.error e => Except.error e
      | Except.ok (p2, kept) =>
          match readAndDivideData minTest p2 rest with
          | Except.error e => Except.error e
          | Except.ok acc => Except.ok (kept :: acc)

/- ## Theorem for C5 -/

/-- Claim C5 (code bug): at the failing input — labels catA with 10 files and
catB with 100 files, caller fraction 1/20, minHoldout 5 — no file of any
label is ever assigned to test by a Bernoulli trial: the walk raises
`NameError: mostCommonSuffix` inside the first non-empty label, after the
holdout computation of lines 132-138 but before the Bernoulli draw of line
154 and before the second label is reached.  The second and third conjuncts
record that by the moment of the crash line 138 has already overwritten the
caller's fraction with the first label's recomputed probability (1/20 became
1/2), so even with the intended suffix helper in place, later labels would be
governed by the previous label's effective probability, not by the caller's
original fraction as the claim requires. -/
theorem C5_bernoulli_never_reached :
    readAndDivideData 5 (1/20)
        [List.replicate 10 "catA.jpg", List.replicate 100 "catB.jpg"] =
      Except.error (PyExc.nameError "mostCommonSuffix") ∧
    (labelHoldout 5 (1/20) 10).2 = 1/2 ∧
    ((1:ℚ)/2) ≠ 1/20 := by
  refine ⟨rfl, ?_, ?_⟩ <;> norm_num [labelHoldout, pyInt]

/- ## Theorem for C6 -/

/-- Claim C6 (code bug): at the failing input — a label directory holding the
two files cat001.jpg and cat002.jpg — the split does not determine a dominant
suffix and filter by it; it raises `NameError: mostCommonSuffix` because
labeled.py line 142 calls a name that is bound nowhere in the module (the
function implementing the described sampling behaviour exists in
dataset/reader.py under the name `mostCommonExtension` but is never
imported). -/
theorem C6_suffix_name_error :
    processLabelDir 5 (1/20) ["cat001.jpg", "cat002.jpg"] =
      Except.error (PyExc.nameError "mostCommonSuffix") := by
  rfl

/- ## Closeness graph (ClassifierSAENetwork.finalizeNetwork, ae/net.py
   lines 121-135) -/

/-- Matrices over ℚ, as lists of rows. -/
abbrev Mat := List (List ℚ)

/-- Entry access (row i, column j) with zero default. -/
def entryM (m : Mat) (i j : ℕ) : ℚ := (m.getD i []).getD j 0

/-- Column count of a rectangular matrix, read off its first row. -/
def numColsM (m : Mat) : ℕ := (m.getD 0 []).length

/-- Column j of a matrix: that component of every row. -/
def colOf (m : Mat) (j : ℕ) : List ℚ := m.map (fun row => row.getD j 0)

/-- Matrix transpose (numpy/theano `.T`), for rectangular matrices. -/
def transposeM (m : Mat) : Mat := (List.range (numColsM m)).map (colOf m)

/-- Dot product of two vectors. -/
def dotL (a b : List ℚ) : ℚ := (List.zipWith (fun x y => x * y) a b).sum

/-- Matrix product `theano.dot`: entry (i, j) is the dot product of row i of
the left factor with column j of the right factor. -/
def matMulM (a b : Mat) : Mat :=
  a.map (fun row => (transposeM b).map (fun col => dotL row col))

/-- Division of every entry by a scalar (theano broadcasting). -/
def scalarDivM (m : Mat) (c : ℚ) : Mat :=
  m.map (fun row => row.map (fun x => x / c))

/-- Sum of the squares of all entries: `t.sum(x ** 2)`. -/
def sumSqM (m : Mat) : ℚ :=
  (m.map (fun row => (row.map (fun x => x * x)).sum)).sum

/-- Rational model of the floating `t.sqrt`: exact whenever numerator and
denominator are perfect squares (which they are at every point where a value
of this function matters in this development). -/
def sqrtQ (q : ℚ) : ℚ := (Nat.sqrt q.num.toNat : ℚ) / (Nat.sqrt q.den : ℚ)

/-- The compiled closeness graph (ae/net.py lines 129-135).  `outClass` is
the row-stacked softmaxed network output of the query batch and `targets` the
stored target-encoding matrix; the graph is
`cosineSimilarity = dot(outClass, targets) / (sqrt(sum(outClass**2)) *
sqrt(sum(targets**2)))` and the compiled function returns
`cosineSimilarity.T`. -/
def closenessGraph (outClass targets : Mat) : Mat :=
  transposeM
    (scalarDivM (matMulM outClass targets)
      (sqrtQ (sumSqM outClass) * sqrtQ (sumSqM targets)))

/-- The target-encoding matrix stored at line 122: the row-stacked softmaxed
encodings of the target set, transposed to orient for right multiplication. -/
def targetEncodingsOf (enc : Mat) : Mat := transposeM enc

/- ### List-indexing helper lemmas -/

/-- getD through map, at an in-range index. -/
theorem getD_map_of_lt {α β : Type} (f : α → β) (l : List α) (i : ℕ) (d : β)
    (d2 : α) (h : i < l.length) : (l.map f).getD i d = f (l.getD i d2) := by
  induction l generalizing i with
  | nil => simp at h
  | cons a l ih =>
      cases i with
      | zero => rfl
      | succ n =>
          simp only [List.map_cons, List.getD_cons_succ]
          exact ih n (Nat.lt_of_succ_lt_succ h)

/-- getD into a function mapped over `List.range`, at an in-range index. -/
theorem getD_range_map {β : Type} (f : ℕ → β) (n i : ℕ) (d : β) (h : i < n) :
    ((List.range n).map f).getD i d = f i := by
  rw [getD_map_of_lt f _ i d 0 (by simpa using h)]
  congr 1
  rw [List.getD_eq_getElem?_getD, List.getElem?_range h]
  rfl

/-- Reading every position of a list back off with getD reproduces it. -/
theorem range_map_getD_self (l : List ℚ) :
    (List.range l.length).map (fun j => l.getD j 0) = l := by
  induction l with
  | nil => rfl
  | cons a l ih =>
      rw [List.length_cons, List.range_succ_eq_map, List.map_cons,
        List.map_map]
      simp only [Function.comp_def, List.getD_cons_succ, List.getD_cons_zero]
      rw [ih]

/-- Pointwise description of the closeness graph: the matrix the compiled
function returns, indexed (target row j, query column i), equals the dot
product of query output row i with target column j divided by the product of
the whole-matrix (Frobenius) norms of the two operands. -/
theorem closeness_entry (out targets : Mat) (i j : ℕ)
    (hi : i < out.length) (hj : j < numColsM targets) :
    entryM (closenessGraph out targets) j i =
      dotL (out.getD i []) (colOf targets j) /
        (sqrtQ (sumSqM out) * sqrtQ (sumSqM targets)) := by
  have hout0 : 0 < out.length := Nat.lt_of_le_of_lt (Nat.zero_le i) hi
  have hTlen : (transposeM targets).length = numColsM targets := by
    simp [transposeM]
  have hM1len : (matMulM out targets).length = out.length := by
    simp [matMulM]
  have hM1row : ∀ (k : ℕ), k < out.length →
      (matMulM out targets).getD k [] =
        (transposeM targets).map (fun col => dotL (out.getD k []) col) := by
    intro k hk
    unfold matMulM
    rw [getD_map_of_lt _ out k [] [] hk]
  have hrowlen : ∀ (k : ℕ), k < out.length →
      ((matMulM out targets).getD k []).length = numColsM targets := by
    intro k hk
    rw [hM1row k hk, List.length_map, hTlen]
  set c := sqrtQ (sumSqM out) * sqrtQ (sumSqM targets) with hc
  have hM2len : (scalarDivM (matMulM out targets) c).length = out.length := by
    simp [scalarDivM, hM1len]
  have hM2row : ∀ (k : ℕ), k < out.length →
      (scalarDivM (matMulM out targets) c).getD k [] =
        ((matMulM out targets).getD k []).map (fun x => x / c) := by
    intro k hk
    unfold scalarDivM
    rw [getD_map_of_lt _ _ k [] [] (by rwa [hM1len])]
  have hcols : numColsM (scalarDivM (matMulM out targets) c) =
      numColsM targets := by
    unfold numColsM
    rw [hM2row 0 hout0, List.length_map, hrowlen 0 hout0]
    rfl
  unfold closenessGraph entryM
  rw [← hc, transposeM, hcols,
    getD_range_map (colOf (scalarDivM (matMulM out targets) c)) _ j [] hj]
  unfold colOf
  rw [getD_map_of_lt _ _ i 0 [] (by rwa [hM2len]), hM2row i hi,
    getD_map_of_lt _ _ j 0 0 (by rwa [hrowlen i hi]), hM1row i hi,
    getD_map_of_lt _ _ j 0 [] (by rwa [hTlen])]
  unfold transposeM
  rw [getD_range_map (colOf targets) _ j [] hj]
  rfl

/- ## Theorems for C7 -/

/-- Claim C7 counterexample: take the query batch whose softmaxed network
output is [[1/2,1/2],[1/2,1/2]] (each row is exactly softmax of a constant
logit vector: entries positive, summing to 1) and a target set identical to
the query inputs, so the stored encodings are the same two rows.  Every
square root involved is of 1, so the floating graph computes these exact
values: the matching-row similarity is 1/2, not 1.0 (the whole-matrix norms
in the denominator see both rows).  Moreover the returned matrix of a 1-query
3-target evaluation has 3 rows, not 1: rows correspond to targets, not query
inputs. -/
theorem C7_counterexample :
    entryM (closenessGraph [[(1:ℚ)/2, 1/2], [1/2, 1/2]]
      (targetEncodingsOf [[(1:ℚ)/2, 1/2], [1/2, 1/2]])) 0 0 = 1/2 ∧
    ((1:ℚ)/2) ≠ 1 ∧
    ([(1:ℚ)/2, 1/2].sum = 1 ∧ (0:ℚ) < 1/2) ∧
    (closenessGraph [[(3:ℚ)/4, 1/4]]
      (targetEncodingsOf [[(3:ℚ)/4, 1/4], [(1:ℚ)/4, 3/4],
        [(1:ℚ)/2, 1/2]])).length = 3 ∧
    (3 : ℕ) ≠ 1 := by
  have htr : targetEncodingsOf [[(1:ℚ)/2, 1/2], [1/2, 1/2]] =
      [[(1:ℚ)/2, 1/2], [1/2, 1/2]] := by
    simp [targetEncodingsOf, transposeM, numColsM, colOf, List.range_succ]
  have hs : sumSqM [[(1:ℚ)/2, 1/2], [1/2, 1/2]] = 1 := by
    norm_num [sumSqM]
  have hq : sqrtQ 1 = 1 := by
    norm_num [sqrtQ]
  have key : closenessGraph [[(1:ℚ)/2, 1/2], [1/2, 1/2]]
      [[(1:ℚ)/2, 1/2], [1/2, 1/2]] = [[(1:ℚ)/2, 1/2], [1/2, 1/2]] := by
    unfold closenessGraph
    rw [hs, hq]
    norm_num [matMulM, scalarDivM, transposeM, numColsM, colOf, dotL,
      sumSqM, List.range_succ]
  refine ⟨?_, by norm_num, ⟨by norm_num, by norm_num⟩, ?_, by norm_num⟩
  · rw [htr, key]
    norm_num [entryM]
  · rfl

/-- Claim C7 (amended): the compiled closeness graph computes, per query row
i and target column j, the dot product of the softmaxed output row with the
target column divided by the product of the WHOLE-MATRIX (Frobenius) norms of
the softmaxed output and of the target-encoding matrix — not per-row cosine
norms — and the transpose orients the result with rows corresponding to
TARGETS and columns to query inputs.  Consequently, on a target set equal to
the query inputs, the matching-row value is the squared norm of that row
divided by the product of the whole-matrix norms, which is 1.0 only in
degenerate (single-row) cases. -/
theorem C7_closeness_graph_form :
    (∀ (out targets : Mat) (i j : ℕ), i < out.length → j < numColsM targets →
      entryM (closenessGraph out targets) j i =
        dotL (out.getD i []) (colOf targets j) /
          (sqrtQ (sumSqM out) * sqrtQ (sumSqM targets))) ∧
    (∀ (out : Mat), (∀ row ∈ out, row.length = numColsM out) →
      ∀ (i : ℕ), i < out.length → 0 < numColsM out →
      entryM (closenessGraph out (targetEncodingsOf out)) i i =
        dotL (out.getD i []) (out.getD i []) /
          (sqrtQ (sumSqM out) * sqrtQ (sumSqM (transposeM out)))) := by
  constructor
  · exact closeness_entry
  · intro out hrect i hi hc
    have houtrow : out.getD i [] ∈ out := by
      rw [List.getD_eq_getElem?_getD, List.getElem?_eq_getElem hi]
      exact List.getElem_mem hi
    have hrowlen : (out.getD i []).length = numColsM out := hrect _ houtrow
    have hTlen : (transposeM out).length = numColsM out := by
      simp [transposeM]
    have hcolsT : numColsM (transposeM out) = out.length := by
      unfold numColsM
      rw [transposeM, getD_range_map (colOf out) _ 0 [] hc]
      simp [colOf]
    have hcol : colOf (transposeM out) i = out.getD i [] := by
      unfold colOf transposeM
      rw [List.map_map]
      have : ∀ j ∈ List.range (numColsM out),
          (Function.comp (fun row => row.getD i 0) (colOf out)) j =
            (out.getD i []).getD j 0 := by
        intro j hj
        simp only [Function.comp, colOf]
        rw [getD_map_of_lt _ out i 0 [] hi]
      rw [List.map_congr_left this, ← hrowlen, range_map_getD_self]
    have := closeness_entry out (targetEncodingsOf out) i i hi
      (by rwa [targetEncodingsOf, hcolsT])
    rw [targetEncodingsOf] at this ⊢
    rw [this, hcol]

/-- Witness for C7_closeness_graph_form: both conjuncts applied at concrete
matrices (a 2-by-2 query output against a 2-by-3 target-encoding matrix for
the general form; the 2-by-2 self-target configuration for the diagonal). -/
theorem C7_closeness_graph_form_witness :
    entryM (closenessGraph [[(1:ℚ)/2, 1/2], [(1:ℚ)/4, 3/4]]
      [[(1:ℚ)/2, 1/4, 1/3], [(1:ℚ)/2, 3/4, 2/3]]) 1 0 =
      dotL ([[(1:ℚ)/2, 1/2], [(1:ℚ)/4, 3/4]].getD 0 [])
        (colOf [[(1:ℚ)/2, 1/4, 1/3], [(1:ℚ)/2, 3/4, 2/3]] 1) /
        (sqrtQ (sumSqM [[(1:ℚ)/2, 1/2], [(1:ℚ)/4, 3/4]]) *
          sqrtQ (sumSqM [[(1:ℚ)/2, 1/4, 1/3], [(1:ℚ)/2, 3/4, 2/3]])) ∧
    entryM (closenessGraph [[(1:ℚ)/2, 1/2], [(1:ℚ)/4, 3/4]]
      (targetEncodingsOf [[(1:ℚ)/2, 1/2], [(1:ℚ)/4, 3/4]])) 1 1 =
      dotL ([[(1:ℚ)/2, 1/2], [(1:ℚ)/4, 3/4]].getD 1 [])
        ([[(1:ℚ)/2, 1/2], [(1:ℚ)/4, 3/4]].getD 1 []) /
        (sqrtQ (sumSqM [[(1:ℚ)/2, 1/2], [(1:ℚ)/4, 3/4]]) *
          sqrtQ (sumSqM (transposeM [[(1:ℚ)/2, 1/2], [(1:ℚ)/4, 3/4]]))) :=
  ⟨C7_closeness_graph_form.1 [[(1:ℚ)/2, 1/2], [(1:ℚ)/4, 3/4]]
      [[(1:ℚ)/2, 1/4, 1/3], [(1:ℚ)/2, 3/4, 2/3]] 0 1 (by decide) (by decide),
   C7_closeness_graph_form.2 [[(1:ℚ)/2, 1/2], [(1:ℚ)/4, 3/4]]
      (by decide) 1 (by decide) (by decide)⟩

/- ## Persistence (ae/net.py __getstate__/__setstate__, lines 51-72 and
   268-287) -/

/-- Attribute record of an SAE network object — and equally a pickled state
dictionary: `none` means the attribute (resp. key) is absent.  `targetData`
wraps a further Option because Python distinguishes an absent attribute from
one set to `None`; compiled theano functions are modelled by opaque ℕ
handles, `trainGreedy` by the list of per-layer compiled handles. -/
structure NetAttrs where
  weights : Option (List (List ℚ))
  targetData : Option (Option (List ℚ))
  targetEncodings : Option (List ℚ)
  closenessFn : Option ℕ
  indexVar : Option ℕ
  trainData : Option (List (List ℚ))
  numTrainBatches : Option ℕ
  trainGreedy : Option (List ℕ)
  trainNetwork : Option ℕ
  deriving DecidableEq

/-- Dictionary-update preference: the dict's entry when the key is present,
otherwise the object's current attribute. -/
def updAttr {α : Type} (d s : Option α) : Option α :=
  match d with
  | some v => some v
  | none => s

/-- Modelled from the spec: SAENetwork/ClassifierNetwork `__getstate__`
(nn/net.py is not in src/) returns a copy of the object's attribute
dictionary — weights and configuration — with the base class's own compiled
graphs (outside this model) already removed. -/
def baseGetstate (s : NetAttrs) : NetAttrs := s

/-- Modelled from the spec: the base `__setstate__` installs the dictionary's
entries onto the object with `self.__dict__.update(dict)` semantics — keys
present in the dict overwrite, attributes without a corresponding key
survive. -/
def baseSetstate (self dict : NetAttrs) : NetAttrs :=
  { weights := updAttr dict.weights self.weights
    targetData := updAttr dict.targetData self.targetData
    targetEncodings := updAttr dict.targetEncodings self.targetEncodings
    closenessFn := updAttr dict.closenessFn self.closenessFn
    indexVar := updAttr dict.indexVar self.indexVar
    trainData := updAttr dict.trainData self.trainData
    numTrainBatches := updAttr dict.numTrainBatches self.numTrainBatches
    trainGreedy := updAttr dict.trainGreedy self.trainGreedy
    trainNetwork := updAttr dict.trainNetwork self.trainNetwork }

/-- ClassifierSAENetwork.__getstate__ (ae/net.py lines 51-60): start from the
base dictionary, set the `_targetData` entry to None (key present, value
None), and delete `_targetEncodings` and `_closeness` when present. -/
def classifierGetstate (s : NetAttrs) : NetAttrs :=
  let d := baseGetstate s
  { d with targetData := some none, targetEncodings := none,
           closenessFn := none }

/-- Failure mode of ClassifierSAENetwork.__setstate__: the restore of
`_targetData` reads the local `tmp`, which was assigned only when the object
had the attribute before loading. -/
inductive PickleErr where
  | unboundLocalError
  deriving DecidableEq

/-- ClassifierSAENetwork.__setstate__ (ae/net.py lines 62-72): delete any
current `_closeness`, remember the pre-load `_targetData` if the attribute is
present, run the base setstate, then re-assign the remembered value whenever
the object now has a `_targetData` attribute. -/
def classifierSetstate (self dict : NetAttrs) : Except PickleErr NetAttrs :=
  let s1 := { self with closenessFn := none }
  let tmp := self.targetData
  let s2 := baseSetstate s1 dict
  match s2.targetData with
  | none => Except.ok s2
  | some _ =>
      match tmp with
      | some v => Except.ok { s2 with targetData := some v }
      | none => Except.error PickleErr.unboundLocalError

/-- TrainerSAENetwork.__getstate__ (ae/net.py lines 268-277): the classifier
dictionary with `_indexVar`, `_trainData`, `_numTrainBatches`, `_trainGreedy`
and `_trainNetwork` removed. -/
def trainerGetstate (s : NetAttrs) : NetAttrs :=
  let d := classifierGetstate s
  { d with indexVar := none, trainData := none, numTrainBatches := none,
           trainGreedy := none, trainNetwork := none }

/-- TrainerSAENetwork.__setstate__ (ae/net.py lines 279-287): assign a fresh
symbolic index variable, delete any current `_trainGreedy` and
`_trainNetwork`, reset `_trainGreedy` to the empty list, then run the
classifier setstate. -/
def trainerSetstate (self dict : NetAttrs) : Except PickleErr NetAttrs :=
  let s1 := { self with indexVar := some 0 }
  let s2 := { s1 with trainGreedy := none, trainNetwork := none }
  let s3 := { s2 with trainGreedy := some ([] : List ℕ) }
  classifierSetstate s3 dict

/- ## Theorem for C8 -/

/-- Claim C8: loading a saved trainer network onto a receiving object that —
like any normally constructed network — carries a `_targetData` attribute and
no stale derived or training buffers yields: weights bit-identical to the
saved network's, the compiled closeness function, joint step and target
encodings absent and the greedy-step list reset to empty (so every compiled
function is rebuilt on first use), the raw training data absent, and the
receiving object's own pre-load target dataset preserved unchanged (the
snapshot's stripped None value does not wipe it). -/
theorem C8_save_load_roundtrip (net self : NetAttrs) (w : List (List ℚ))
    (tv : Option (List ℚ))
    (hw : net.weights = some w)
    (ht : self.targetData = some tv)
    (hte : self.targetEncodings = none)
    (htd : self.trainData = none)
    (hnb : self.numTrainBatches = none) :
    trainerSetstate self (trainerGetstate net) =
      Except.ok { weights := some w, targetData := some tv,
                  targetEncodings := none, closenessFn := none,
                  indexVar := some 0, trainData := none,
                  numTrainBatches := none, trainGreedy := some [],
                  trainNetwork := none } := by
  simp [trainerSetstate, trainerGetstate, classifierSetstate,
    classifierGetstate, baseSetstate, baseGetstate, updAttr, hw, ht, hte,
    htd, hnb]

/-- Witness for C8_save_load_roundtrip: a fully trained network snapshot
loaded onto a freshly constructed object holding its own target dataset. -/
theorem C8_save_load_roundtrip_witness :
    trainerSetstate
      ⟨none, some (some [9]), none, none, none, none, none, none, none⟩
      (trainerGetstate
        ⟨some [[1, 2]], some (some [2]), some [3], some 7, some 11,
         some [[4]], some 5, some [21, 22], some 8⟩) =
      Except.ok { weights := some [[1, 2]], targetData := some (some [9]),
                  targetEncodings := none, closenessFn := none,
                  indexVar := some 0, trainData := none,
                  numTrainBatches := none, trainGreedy := some [],
                  trainNetwork := none } :=
  C8_save_load_roundtrip
    ⟨some [[1, 2]], some (some [2]), some [3], some 7, some 11, some [[4]],
     some 5, some [21, 22], some 8⟩
    ⟨none, some (some [9]), none, none, none, none, none, none, none⟩
    [[1, 2]] (some [9]) rfl rfl rfl rfl rfl

/- ## Staging cache (hdf5Dataset, dataset/ingest/labeled.py lines 168-196) -/

/-- Last path component (os.path.basename of an absolute path). -/
def baseName (p : String) : String := ((p.splitOn "/").getLast?).getD p

/-- The output artifact name (labeled.py lines 188-191): rooted at the input
directory, it encodes the directory's base name, the holdout fraction and the
batch size — and nothing else; in particular the minimum-holdout parameter
`minTest` does not appear in it. -/
def outputFileName (rootpath : String) (holdoutPercentage : ℚ)
    (batchSize : ℕ) : String :=
  rootpath ++ "/" ++ baseName rootpath ++ "_labeled" ++ "_holdout_" ++
    toString holdoutPercentage ++ "_batch_" ++ toString batchSize ++ ".hdf5"

/-- Result of one `hdf5Dataset` invocation: the set of files on disk
afterwards, the returned artifact path, and whether the directory tree was
walked and the store rebuilt. -/
structure StageResult where
  fs : List String
  out : String
  walked : Bool
  deriving DecidableEq

/-- hdf5Dataset (labeled.py lines 168-296): compute the output artifact
name; if it already exists on disk return it immediately (lines 192-196),
before any directory walk and before the minimum-holdout parameter is ever
consulted.  Otherwise walk the directory tree with readAndDivideData —
which raises NameError inside the first non-empty label directory — then
raise the line-230 ValueError when the walk collected no training examples;
only past both of those would `createHDF5Labeled` build and flush the store
(so that final branch, modelled as creating the artifact, is dead code for
every input: staging can never produce the artifact it would later find).
The root's per-label file lists are part of the input. -/
def hdf5Dataset (fs : List String) (rootpath : String)
    (labelFiles : List (List String)) (holdoutPercentage : ℚ)
    (minTest : ℤ) (batchSize : ℕ) : Except PyExc StageResult :=
  let outputFile := outputFileName rootpath holdoutPercentage batchSize
  if outputFile ∈ fs then Except.ok ⟨fs, outputFile, false⟩
  else
    match readAndDivideData minTest holdoutPercentage labelFiles with
    | Except.error e => Except.error e
    | Except.ok kept =>
        if kept.flatten.length = 0 then Except.error PyExc.valueError
        else Except.ok ⟨outputFile :: fs, outputFile, true⟩

/-- The walk's outcome never depends on the minimum-holdout parameter: empty
labels leave the threaded probability untouched, and the first non-empty
label aborts the walk identically for every minTest. -/
theorem readAndDivideData_minTest_irrel (labelFiles : List (List String))
    (p : ℚ) (m1 m2 : ℤ) :
    readAndDivideData m1 p labelFiles = readAndDivideData m2 p labelFiles := by
  induction labelFiles generalizing p with
  | nil => rfl
  | cons files rest ih =>
      by_cases hf : files.length = 0
      · simp [readAndDivideData, processLabelDir, hf, ih p]
      · simp [readAndDivideData, processLabelDir, hf,
          resolveName_mostCommonSuffix]

/- ## Theorems for C9 and C10 -/

/-- Claim C9 (code bug): staging is idempotent only for an artifact that was
already on disk before the first call; a first call can never build one.
At the failing input — no artifact on disk, one label directory with two
files — stage() raises the NameError of labeled.py line 142 (first conjunct);
with every label directory empty it raises the line-230 ValueError instead
(second conjunct); in neither case is the artifact created, so a second
identical call raises the same error rather than finding a cache.  When the
artifact does pre-exist, its path is returned at once with no walk and the
file system untouched (third conjunct). -/
theorem C9_stage_never_builds :
    hdf5Dataset [] "/data" [["cat001.jpg", "cat002.jpg"]] (1/20) 5 10 =
      Except.error (PyExc.nameError "mostCommonSuffix") ∧
    hdf5Dataset [] "/data" [[], []] (1/20) 5 10 =
      Except.error PyExc.valueError ∧
    hdf5Dataset [outputFileName "/data" (1/20) 10] "/data"
        [["cat001.jpg", "cat002.jpg"]] (1/20) 5 10 =
      Except.ok ⟨[outputFileName "/data" (1/20) 10],
        outputFileName "/data" (1/20) 10, false⟩ := by
  refine ⟨rfl, rfl, ?_⟩
  have hex : outputFileName "/data" (1/20) 10 ∈
      [outputFileName "/data" (1/20) 10] := List.mem_singleton_self _
  simp [hdf5Dataset, hex]

/-- Claim C10: the staging outcome never depends on the minimum-holdout
parameter at all — the artifact name encodes only the root path, the holdout
fraction and the batch size, and minTest influences nothing observable — and
for an already-staged root (artifact on disk) a call with ANY minTest returns
the previously built artifact immediately, without re-processing. -/
theorem C10_minTest_not_encoded (fs : List String) (root : String)
    (labelFiles : List (List String)) (h : ℚ) (m1 m2 : ℤ) (b : ℕ) :
    hdf5Dataset fs root labelFiles h m1 b =
      hdf5Dataset fs root labelFiles h m2 b ∧
    (outputFileName root h b ∈ fs →
      hdf5Dataset fs root labelFiles h m2 b =
        Except.ok ⟨fs, outputFileName root h b, false⟩) := by
  constructor
  · simp only [hdf5Dataset]
    rw [readAndDivideData_minTest_irrel labelFiles h m1 m2]
  · intro hex
    simp [hdf5Dataset, hex]

/-- Witness for C10_minTest_not_encoded: an already-staged root /data with
holdout 1/20 and batch size 10, restaged with minTest 5 and then 7. -/
theorem C10_minTest_not_encoded_witness :
    hdf5Dataset [outputFileName "/data" (1/20) 10] "/data"
        [["cat001.jpg", "cat002.jpg"]] (1/20) 5 10 =
      hdf5Dataset [outputFileName "/data" (1/20) 10] "/data"
        [["cat001.jpg", "cat002.jpg"]] (1/20) 7 10 ∧
    hdf5Dataset [outputFileName "/data" (1/20) 10] "/data"
        [["cat001.jpg", "cat002.jpg"]] (1/20) 7 10 =
      Except.ok ⟨[outputFileName "/data" (1/20) 10],
        outputFileName "/data" (1/20) 10, false⟩ :=
  ⟨(C10_minTest_not_encoded [outputFileName "/data" (1/20) 10] "/data"
      [["cat001.jpg", "cat002.jpg"]] (1/20) 5 7 10).1,
   (C10_minTest_not_encoded [outputFileName "/data" (1/20) 10] "/data"
      [["cat001.jpg", "cat002.jpg"]] (1/20) 5 7 10).2
     (List.mem_singleton_self _)⟩
